import Mathlib

/-!
Shallow embedding of the godo DigitalOcean API client.

The Go client funnels every operation through one helper, `doGet`, which
composes the final URL (base URL ++ endpoint ++ credentials), performs an
HTTP GET, reads the body and JSON-decodes it into an operation-specific
envelope.  We model the network as an oracle `http : String → HttpResponse ε`
mapping the composed URL to the outcome of the GET/read/decode pipeline,
where `ε` is the operation's decoded envelope type.  Go's `panic` is made
explicit as a constructor of the result types, and a Go return pair
`(value, error)` becomes `GoResult.ret value err?`.
-/

namespace Godo

/-- Base URL of the API, the Go constant `APIURL`. -/
def APIURL : String := "https://api.digitalocean.com/v1"

/-- Go `Client`: the two static credential strings. -/
structure Client where
  clientID : String
  apiKey : String
deriving DecidableEq, Repr

/-- The decoded JSON envelope: a status string (Go `Status` is a string type),
an operation-specific payload, and a message (populated on error). -/
structure Envelope (α : Type) where
  status : String
  payload : α
  message : String
deriving DecidableEq, Repr

/-- Outcome of the GET / ReadAll / Unmarshal pipeline for one URL, as seen by
`doGet`: `getError` is an error from `http.Get`, `readFail` an error from
`ioutil.ReadAll`, `badBody` an error from `json.Unmarshal` (body not valid
JSON for the envelope shape), and `body` a successfully decoded envelope. -/
inductive HttpResponse (ε : Type) where
  | getError (e : String)
  | readFail (e : String)
  | badBody (e : String)
  | body (env : ε)
deriving DecidableEq, Repr

/-- Result of `doGet`: a returned transport error, a process halt (Go
`panic`), or the decoded envelope with a nil error. -/
inductive DoGetOut (ε : Type) where
  | err (e : String)
  | panicked (m : String)
  | ok (env : ε)
deriving DecidableEq, Repr

/-- Result of a Go method returning `(α, error)` (or `(*T, error)` with
`α = Option T`): `ret v e?` is a normal return of value `v` and error `e?`;
`panicked` models a `panic` escaping from `doGet`. -/
inductive GoResult (α : Type) where
  | ret (val : α) (err : Option String)
  | panicked (m : String)
deriving DecidableEq, Repr

instance {α β : Type} [DecidableEq α] [DecidableEq β] : DecidableEq (Except α β) := fun a b =>
  match a, b with
  | .ok x, .ok y =>
    if h : x = y then .isTrue (h ▸ rfl) else .isFalse fun hc => h (Except.ok.inj hc)
  | .error x, .error y =>
    if h : x = y then .isTrue (h ▸ rfl) else .isFalse fun hc => h (Except.error.inj hc)
  | .ok _, .error _ => .isFalse fun hc => Except.noConfusion hc
  | .error _, .ok _ => .isFalse fun hc => Except.noConfusion hc

/-- Character membership in a string; models Go `strings.Contains(s, c)` for
a one-character pattern. -/
def containsChar (s : String) (c : Char) : Bool := s.data.contains c

/-- URL composition performed by `doGet` before the GET: append `?` when the
URL has none, else `&`, then the two credential parameters. -/
def composeURL (c : Client) (endpoint : String) : String :=
  let url := APIURL ++ endpoint
  let url := if containsChar url '?' then url ++ "&" else url ++ "?"
  url ++ "client_id=" ++ c.clientID ++ "&api_key=" ++ c.apiKey

/-- The shared request helper `doGet`: compose the URL, consult the
transport, return `http.Get` errors, and `panic` on read or decode
failures; on success the decoded envelope is handed back. -/
def doGet (c : Client) (endpoint : String) (http : String → HttpResponse ε) :
    DoGetOut ε :=
  match http (composeURL c endpoint) with
  | .getError e => .err e
  | .readFail e => .panicked e
  | .badBody e => .panicked e
  | .body env => .ok env

/-- A Go `interface\x7b\x7d` argument: a dynamic value that is an `int`, a
`string`, or something else; for the last we keep only its `%v` rendering. -/
inductive GoValue where
  | int (n : Int)
  | str (s : String)
  | other (rendered : String)
deriving DecidableEq, Repr

/-- Go `%v` formatting of a dynamic value. -/
def GoValue.fmtV : GoValue → String
  | .int n => toString n
  | .str s => s
  | .other r => r

/-- Go `Droplet` record (the `time.Time` field is kept as its string
rendering; no claim depends on its structure). -/
structure Droplet where
  id : Int
  name : String
  imageID : Int
  sizeID : Int
  regionID : Int
  backupsActive : Bool
  ipAddress : String
  privateIPAddress : String
  locked : Bool
  status : String
  createdAt : String
deriving DecidableEq, Repr

/-- Go `NewDroplet`: the creation request. -/
structure NewDroplet where
  name : String
  sizeID : Int
  sizeSlug : String
  imageID : Int
  imageSlug : String
  regionID : Int
  regionSlug : String
  sshKeyIDs : List String
  privateNetworking : Bool
  backupsEnabled : Bool
deriving DecidableEq, Repr

/-- Go `PartialDroplet`: payload of a successful droplet creation. -/
structure PartialDroplet where
  id : Int
  name : String
  imageID : Int
  sizeID : Int
  eventID : Int
deriving DecidableEq, Repr

/-- Go `DomainRecord`. -/
structure DomainRecord where
  id : Int
  domainID : Int
  recordType : String
  name : String
  data : String
  priority : Int
  port : Int
  weight : Int
deriving DecidableEq, Repr

/-- The part of `CreateDroplet` that runs before the network call:
validation of the three selector pairs, then construction of the endpoint
string exactly as the Go code concatenates it.  `.error` is a fail-fast
local validation error, `.ok` the endpoint handed to `doGet`. -/
def createDropletEndpoint (n : NewDroplet) : Except String String :=
  if n.sizeID = 0 ∧ n.sizeSlug = "" then .error "size ID or slug must be set"
  else if n.imageID = 0 ∧ n.imageSlug = "" then .error "image ID or slug must be set"
  else if n.regionID = 0 ∧ n.regionSlug = "" then .error "region ID or slug must be set"
  else
    let s := "/droplets/new?name=" ++ n.name
    let s := if n.sizeID ≠ 0 then s ++ "&size_id=" ++ toString n.sizeID
             else s ++ "&size_slug=" ++ n.sizeSlug
    let s := if n.imageID ≠ 0 then s ++ "&image_id=" ++ toString n.imageID
             else s ++ "&image_slug=" ++ n.imageSlug
    let s := if n.regionID ≠ 0 then s ++ "&region_id=" ++ toString n.regionID
             else s ++ "&region_slug=" ++ n.regionSlug
    let s := if n.sshKeyIDs.length > 0
             then s ++ "&ssh_key_ids=" ++ String.intercalate "," n.sshKeyIDs else s
    let s := if n.privateNetworking then s ++ "&private_networking=true" else s
    let s := if n.backupsEnabled then s ++ "&backups_enabled=true" else s
    .ok s

/-- Go `CreateDroplet`: validate, build the endpoint, call `doGet`, branch on
the envelope status. -/
def CreateDroplet (c : Client) (http : String → HttpResponse (Envelope PartialDroplet))
    (n : NewDroplet) : GoResult (Option PartialDroplet) :=
  match createDropletEndpoint n with
  | .error e => .ret none (some e)
  | .ok s =>
    match doGet c s http with
    | .err e => .ret none (some e)
    | .panicked m => .panicked m
    | .ok env =>
      if env.status = "ERROR" then
        .ret none (some ("could not create droplet: " ++ env.message))
      else .ret (some env.payload) none

/-- The part of `ResizeDroplet` before the network call: the type switch on
the dynamic `size` argument.  Note the Go code appends the size parameter
with `&` although the path so far has no `?`. -/
def resizeDropletEndpoint (ID : Int) (size : GoValue) : Except String String :=
  let s := "/droplets/" ++ toString ID ++ "/resize"
  match size with
  | .str v => .ok (s ++ "&size_slug=" ++ v)
  | .int n => .ok (s ++ "&size_id=" ++ toString n)
  | .other _ => .error "size must be either a string or integer"

/-- Go `ResizeDroplet`: type-check the size argument, then GET and branch on
the envelope status; the payload is the returned event ID. -/
def ResizeDroplet (c : Client) (http : String → HttpResponse (Envelope Int))
    (ID : Int) (size : GoValue) : GoResult Int :=
  match resizeDropletEndpoint ID size with
  | .error e => .ret 0 (some e)
  | .ok s =>
    match doGet c s http with
    | .err e => .ret 0 (some e)
    | .panicked m => .panicked m
    | .ok env =>
      if env.status = "ERROR" then
        .ret 0 (some ("could not resize the droplet with ID " ++ toString ID ++ ": " ++ env.message))
      else .ret env.payload none

/-- Endpoint built by `TakeSnapshotOnDroplet`: the optional name is appended
with `&` although the path so far has no `?`. -/
def takeSnapshotEndpoint (ID : Int) (name : String) : String :=
  let s := "/droplets/" ++ toString ID ++ "/snapshot"
  if name ≠ "" then s ++ "&name=" ++ name else s

/-- Go `TakeSnapshotOnDroplet`. -/
def TakeSnapshotOnDroplet (c : Client) (http : String → HttpResponse (Envelope Int))
    (ID : Int) (name : String) : GoResult Int :=
  match doGet c (takeSnapshotEndpoint ID name) http with
  | .err e => .ret 0 (some e)
  | .panicked m => .panicked m
  | .ok env =>
    if env.status = "ERROR" then
      .ret 0 (some ("could not take snapshot of droplet with ID " ++ toString ID ++ ": " ++ env.message))
    else .ret env.payload none

/-- Go `GetDropletByID`. -/
def GetDropletByID (c : Client) (http : String → HttpResponse (Envelope Droplet))
    (ID : Int) : GoResult (Option Droplet) :=
  match doGet c ("/droplets/" ++ toString ID) http with
  | .err e => .ret none (some e)
  | .panicked m => .panicked m
  | .ok env =>
    if env.status = "ERROR" then
      .ret none (some ("could not get droplet with ID " ++ toString ID ++ ": " ++ env.message))
    else .ret (some env.payload) none

/-- The part of `CreateDomainRecord` before the network call: validation of
the two required free-text fields, then the endpoint string with optional
parameters appended only when non-zero, exactly as the Go code does. -/
def createDomainRecordEndpoint (ID : GoValue) (r : DomainRecord) : Except String String :=
  if r.recordType = "" then .error "record type must be set"
  else if r.data = "" then .error "data value must be set"
  else
    let s := "/domains/" ++ ID.fmtV ++ "/records/new?record_type=" ++ r.recordType
               ++ "&data=" ++ r.data
    let s := if r.name ≠ "" then s ++ "&name=" ++ r.name else s
    let s := if r.priority ≠ 0 then s ++ "&priority=" ++ toString r.priority else s
    let s := if r.port ≠ 0 then s ++ "&port=" ++ toString r.port else s
    let s := if r.weight ≠ 0 then s ++ "&weight=" ++ toString r.weight else s
    .ok s

/-- Go `CreateDomainRecord`. -/
def CreateDomainRecord (c : Client) (http : String → HttpResponse (Envelope DomainRecord))
    (ID : GoValue) (r : DomainRecord) : GoResult (Option DomainRecord) :=
  match createDomainRecordEndpoint ID r with
  | .error e => .ret none (some e)
  | .ok s =>
    match doGet c s http with
    | .err e => .ret none (some e)
    | .panicked m => .panicked m
    | .ok env =>
      if env.status = "ERROR" then
        .ret none (some ("could not create record for domain " ++ ID.fmtV ++ ": " ++ env.message))
      else .ret (some env.payload) none

/-- The part of `UpdateRecordByDomain` before the network call.  The Go
source calls
`fmt.Sprintf("/domains/%v/records/new?record_type=%s&data=%s", domainID, r.ID, r.RecordType, r.Data)`
— three verbs against four arguments.  Following Go's documented `fmt`
semantics: `%v` consumes `domainID`; `record_type=%s` consumes the int
`r.ID`, rendered as the bad-verb string `%!s(int=<ID>)`; `data=%s` consumes
`r.RecordType`; and the leftover `r.Data` is appended as
`%!(EXTRA string=<Data>)`. -/
def updateRecordEndpoint (domainID : GoValue) (r : DomainRecord) : Except String String :=
  if r.id = 0 then .error "record ID must be set"
  else if r.recordType = "" then .error "record type must be set"
  else if r.data = "" then .error "data value must be set"
  else
    let s := "/domains/" ++ domainID.fmtV ++ "/records/new?record_type="
               ++ "%!s(int=" ++ toString r.id ++ ")"
               ++ "&data=" ++ r.recordType
               ++ "%!(EXTRA string=" ++ r.data ++ ")"
    let s := if r.name ≠ "" then s ++ "&name=" ++ r.name else s
    let s := if r.priority ≠ 0 then s ++ "&priority=" ++ toString r.priority else s
    let s := if r.port ≠ 0 then s ++ "&port=" ++ toString r.port else s
    let s := if r.weight ≠ 0 then s ++ "&weight=" ++ toString r.weight else s
    .ok s

/-- Go `UpdateRecordByDomain`. -/
def UpdateRecordByDomain (c : Client) (http : String → HttpResponse (Envelope DomainRecord))
    (domainID : GoValue) (r : DomainRecord) : GoResult (Option DomainRecord) :=
  match updateRecordEndpoint domainID r with
  | .error e => .ret none (some e)
  | .ok s =>
    match doGet c s http with
    | .err e => .ret none (some e)
    | .panicked m => .panicked m
    | .ok env =>
      if env.status = "ERROR" then
        .ret none (some ("could not create record " ++ toString r.id ++ " for domain "
          ++ domainID.fmtV ++ ": " ++ env.message))
      else .ret (some env.payload) none

/-- Join a list of `key=value` parameter strings with `&` separators; the
spec-side reading of an HTTP query string. -/
def joinParams : List String → String
  | [] => ""
  | [p] => p
  | p :: q :: ps => p ++ "&" ++ joinParams (q :: ps)

/-- Spec-side parameter list of the `CreateDomainRecord` query: the two
required parameters followed by each optional parameter exactly when its
value is non-zero / non-empty. -/
def domainRecordParams (r : DomainRecord) : List String :=
  ["record_type=" ++ r.recordType, "data=" ++ r.data]
    ++ (if r.name ≠ "" then ["name=" ++ r.name] else [])
    ++ (if r.priority ≠ 0 then ["priority=" ++ toString r.priority] else [])
    ++ (if r.port ≠ 0 then ["port=" ++ toString r.port] else [])
    ++ (if r.weight ≠ 0 then ["weight=" ++ toString r.weight] else [])

/-- Spec-side parameter list of the `CreateDroplet` query: the name, one
parameter per selector (numeric id preferred over slug), then each optional
parameter exactly when the caller supplied a non-zero value. -/
def newDropletParams (n : NewDroplet) : List String :=
  ("name=" ++ n.name)
    :: (if n.sizeID ≠ 0 then "size_id=" ++ toString n.sizeID
        else "size_slug=" ++ n.sizeSlug)
    :: (if n.imageID ≠ 0 then "image_id=" ++ toString n.imageID
        else "image_slug=" ++ n.imageSlug)
    :: (if n.regionID ≠ 0 then "region_id=" ++ toString n.regionID
        else "region_slug=" ++ n.regionSlug)
    :: ((if n.sshKeyIDs.length > 0
         then ["ssh_key_ids=" ++ String.intercalate "," n.sshKeyIDs] else [])
      ++ (if n.privateNetworking then ["private_networking=true"] else [])
      ++ (if n.backupsEnabled then ["backups_enabled=true"] else []))

/-- The query chunk `CreateDroplet` emits for the size selector. -/
def sizeChunk (n : NewDroplet) : String :=
  if n.sizeID ≠ 0 then "&size_id=" ++ toString n.sizeID else "&size_slug=" ++ n.sizeSlug

/-- The query chunk `CreateDroplet` emits for the image selector. -/
def imageChunk (n : NewDroplet) : String :=
  if n.imageID ≠ 0 then "&image_id=" ++ toString n.imageID else "&image_slug=" ++ n.imageSlug

/-- The query chunk `CreateDroplet` emits for the region selector. -/
def regionChunk (n : NewDroplet) : String :=
  if n.regionID ≠ 0 then "&region_id=" ++ toString n.regionID else "&region_slug=" ++ n.regionSlug

/-- The chunks `CreateDroplet` appends for the three optional trailing
fields (empty when the field has its zero value). -/
def dropletOptionalTail (n : NewDroplet) : String :=
  (if n.sshKeyIDs.length > 0
   then "&ssh_key_ids=" ++ String.intercalate "," n.sshKeyIDs else "")
  ++ (if n.privateNetworking then "&private_networking=true" else "")
  ++ (if n.backupsEnabled then "&backups_enabled=true" else "")

/-- The chunks `CreateDomainRecord` appends for its four optional fields. -/
def recordOptionalTail (r : DomainRecord) : String :=
  (if r.name ≠ "" then "&name=" ++ r.name else "")
  ++ (if r.priority ≠ 0 then "&priority=" ++ toString r.priority else "")
  ++ (if r.port ≠ 0 then "&port=" ++ toString r.port else "")
  ++ (if r.weight ≠ 0 then "&weight=" ++ toString r.weight else "")

/-- The first validation error produced by `CreateDroplet`'s selector
checks, in the order the Go code performs them (`none` when validation
passes). -/
def firstSelectorError (n : NewDroplet) : Option String :=
  if n.sizeID = 0 ∧ n.sizeSlug = "" then some "size ID or slug must be set"
  else if n.imageID = 0 ∧ n.imageSlug = "" then some "image ID or slug must be set"
  else if n.regionID = 0 ∧ n.regionSlug = "" then some "region ID or slug must be set"
  else none

/-! ## Helper lemmas -/

/-- Splitting the literal of the record-creation format string at the `?`. -/
theorem split_rt (x : String) :
    ("/records/new?record_type=" : String) ++ x = "/records/new?" ++ ("record_type=" ++ x) := by
  have h : ("/records/new?record_type=" : String) = "/records/new?" ++ "record_type=" := by decide
  rw [h, String.append_assoc]

/-- Splitting the `&data=` chunk literal at the separator. -/
theorem split_data (x : String) : ("&data=" : String) ++ x = "&" ++ ("data=" ++ x) := by
  have h : ("&data=" : String) = "&" ++ "data=" := by decide
  rw [h, String.append_assoc]

/-- Splitting the `&name=` chunk literal at the separator. -/
theorem split_name (x : String) : ("&name=" : String) ++ x = "&" ++ ("name=" ++ x) := by
  have h : ("&name=" : String) = "&" ++ "name=" := by decide
  rw [h, String.append_assoc]

/-- Splitting the `&priority=` chunk literal at the separator. -/
theorem split_priority (x : String) :
    ("&priority=" : String) ++ x = "&" ++ ("priority=" ++ x) := by
  have h : ("&priority=" : String) = "&" ++ "priority=" := by decide
  rw [h, String.append_assoc]

/-- Splitting the `&port=` chunk literal at the separator. -/
theorem split_port (x : String) : ("&port=" : String) ++ x = "&" ++ ("port=" ++ x) := by
  have h : ("&port=" : String) = "&" ++ "port=" := by decide
  rw [h, String.append_assoc]

/-- Splitting the `&weight=` chunk literal at the separator. -/
theorem split_weight (x : String) : ("&weight=" : String) ++ x = "&" ++ ("weight=" ++ x) := by
  have h : ("&weight=" : String) = "&" ++ "weight=" := by decide
  rw [h, String.append_assoc]

/-- Splitting the literal of the droplet-creation format string at the `?`. -/
theorem split_dname (x : String) :
    ("/droplets/new?name=" : String) ++ x = "/droplets/new?" ++ ("name=" ++ x) := by
  have h : ("/droplets/new?name=" : String) = "/droplets/new?" ++ "name=" := by decide
  rw [h, String.append_assoc]

/-- Splitting the `&size_id=` chunk literal at the separator. -/
theorem split_size_id (x : String) :
    ("&size_id=" : String) ++ x = "&" ++ ("size_id=" ++ x) := by
  have h : ("&size_id=" : String) = "&" ++ "size_id=" := by decide
  rw [h, String.append_assoc]

/-- Splitting the `&size_slug=` chunk literal at the separator. -/
theorem split_size_slug (x : String) :
    ("&size_slug=" : String) ++ x = "&" ++ ("size_slug=" ++ x) := by
  have h : ("&size_slug=" : String) = "&" ++ "size_slug=" := by decide
  rw [h, String.append_assoc]

/-- Splitting the `&image_id=` chunk literal at the separator. -/
theorem split_image_id (x : String) :
    ("&image_id=" : String) ++ x = "&" ++ ("image_id=" ++ x) := by
  have h : ("&image_id=" : String) = "&" ++ "image_id=" := by decide
  rw [h, String.append_assoc]

/-- Splitting the `&image_slug=` chunk literal at the separator. -/
theorem split_image_slug (x : String) :
    ("&image_slug=" : String) ++ x = "&" ++ ("image_slug=" ++ x) := by
  have h : ("&image_slug=" : String) = "&" ++ "image_slug=" := by decide
  rw [h, String.append_assoc]

/-- Splitting the `&region_id=` chunk literal at the separator. -/
theorem split_region_id (x : String) :
    ("&region_id=" : String) ++ x = "&" ++ ("region_id=" ++ x) := by
  have h : ("&region_id=" : String) = "&" ++ "region_id=" := by decide
  rw [h, String.append_assoc]

/-- Splitting the `&region_slug=` chunk literal at the separator. -/
theorem split_region_slug (x : String) :
    ("&region_slug=" : String) ++ x = "&" ++ ("region_slug=" ++ x) := by
  have h : ("&region_slug=" : String) = "&" ++ "region_slug=" := by decide
  rw [h, String.append_assoc]

/-- Splitting the `&ssh_key_ids=` chunk literal at the separator. -/
theorem split_ssh (x : String) :
    ("&ssh_key_ids=" : String) ++ x = "&" ++ ("ssh_key_ids=" ++ x) := by
  have h : ("&ssh_key_ids=" : String) = "&" ++ "ssh_key_ids=" := by decide
  rw [h, String.append_assoc]

/-- Closed form of the endpoint produced by `CreateDomainRecord` once the
two required-field validations pass. -/
theorem createDomainRecordEndpoint_chunks (ID : GoValue) (r : DomainRecord)
    (h1 : r.recordType ≠ "") (h2 : r.data ≠ "") :
    createDomainRecordEndpoint ID r
      = .ok ("/domains/" ++ ID.fmtV ++ "/records/new?record_type=" ++ r.recordType
          ++ "&data=" ++ r.data ++ recordOptionalTail r) := by
  simp only [createDomainRecordEndpoint, recordOptionalTail, if_neg h1, if_neg h2]
  split_ifs <;> simp_all [String.append_assoc]

set_option maxHeartbeats 1600000 in
/-- Closed form of the endpoint produced by `CreateDroplet` once the three
selector validations pass. -/
theorem createDropletEndpoint_chunks (n : NewDroplet)
    (hs : ¬(n.sizeID = 0 ∧ n.sizeSlug = ""))
    (hi : ¬(n.imageID = 0 ∧ n.imageSlug = ""))
    (hr : ¬(n.regionID = 0 ∧ n.regionSlug = "")) :
    createDropletEndpoint n
      = .ok ("/droplets/new?name=" ++ n.name ++ sizeChunk n ++ imageChunk n
          ++ regionChunk n ++ dropletOptionalTail n) := by
  simp only [createDropletEndpoint, sizeChunk, imageChunk, regionChunk, dropletOptionalTail,
    if_neg hs, if_neg hi, if_neg hr]
  split_ifs <;> simp [String.append_assoc]

/-! ## Claim theorems -/

/-- Claim C7: for every endpoint string handed to the shared request helper,
the final URL issued to the transport ends with the client's stored
`client_id` and `api_key` as its last two query parameters, preceded by a
`?` or `&` separator. -/
theorem credentials_final_query_params (c : Client) (endpoint : String) :
    ∃ sep, (sep = "?" ∨ sep = "&") ∧
      composeURL c endpoint
        = APIURL ++ endpoint ++ sep ++ "client_id=" ++ c.clientID
            ++ "&api_key=" ++ c.apiKey := by
  by_cases h : containsChar (APIURL ++ endpoint) '?'
  · exact ⟨"&", Or.inr rfl, by simp [composeURL, h]⟩
  · exact ⟨"?", Or.inl rfl, by simp [composeURL, h]⟩

/-- Claim C9: when reading the response body fails or the body is not valid
JSON for the expected envelope shape, the shared request helper halts the
process (modelled by the `panicked` constructor) instead of returning a
decode error, and the halt propagates through an operation such as
`GetDropletByID`. -/
theorem doGet_read_decode_failures_halt (c : Client) (endpoint m : String) (ID : Int) :
    doGet c endpoint (fun _ => (.badBody m : HttpResponse (Envelope Droplet))) = .panicked m
  ∧ doGet c endpoint (fun _ => (.readFail m : HttpResponse (Envelope Droplet))) = .panicked m
  ∧ GetDropletByID c (fun _ => .badBody m) ID = .panicked m
  ∧ GetDropletByID c (fun _ => .readFail m) ID = .panicked m :=
  ⟨rfl, rfl, rfl, rfl⟩

/-- Claim C5: `ResizeDroplet` accepts a size argument that is an integer or
a string (the endpoint construction succeeds for both), and for a size
value of any other dynamic type it returns the local type error paired with
a zero event ID, for every transport oracle, so the network layer is never
reached. -/
theorem resizeDroplet_type_switch (c : Client)
    (http : String → HttpResponse (Envelope Int)) (ID : Int) (d v : String) (m : Int) :
    ResizeDroplet c http ID (.other d)
        = .ret 0 (some "size must be either a string or integer")
  ∧ (∃ s, resizeDropletEndpoint ID (.str v) = .ok s)
  ∧ (∃ s, resizeDropletEndpoint ID (.int m) = .ok s) :=
  ⟨rfl, ⟨_, rfl⟩, ⟨_, rfl⟩⟩

/-- Claim C8: for every droplet ID, when the decoded envelope has status
`OK` the operation returns the decoded droplet with a nil error, and when
it has status `ERROR` it returns a nil result and a non-nil error whose
text contains both the requested ID and the server-supplied message. -/
theorem getDropletByID_status_semantics (c : Client) (ID : Int) (d : Droplet)
    (msg : String) :
    GetDropletByID c (fun _ => .body ⟨"OK", d, msg⟩) ID = .ret (some d) none
  ∧ GetDropletByID c (fun _ => .body ⟨"ERROR", d, msg⟩) ID
      = .ret none
          (some ("could not get droplet with ID " ++ toString ID ++ ": " ++ msg))
  ∧ (∃ p q, "could not get droplet with ID " ++ toString ID ++ ": " ++ msg
      = p ++ toString ID ++ q)
  ∧ (∃ p, "could not get droplet with ID " ++ toString ID ++ ": " ++ msg = p ++ msg) := by
  refine ⟨?_, ?_, ⟨"could not get droplet with ID ", ": " ++ msg, ?_⟩, ⟨_, rfl⟩⟩
  · simp [GetDropletByID, doGet]
  · simp [GetDropletByID, doGet]
  · exact String.append_assoc _ _ _

/-- Claim C3 (code-bug evidence): `ResizeDroplet` and `TakeSnapshotOnDroplet`
append their query parameter with `&` although the path contains no `?`, so
in the final URL the parameter precedes the single `?` that `doGet` adds:
the composed URL is not of the well-formed `path?params` shape the spec
requires.  Evaluated at ID 1 with size `"512mb"` (and ID 2, snapshot name
`"snap"`). -/
theorem resizeSnapshot_param_precedes_question_mark :
    resizeDropletEndpoint 1 (.str "512mb") = .ok "/droplets/1/resize&size_slug=512mb"
  ∧ composeURL ⟨"cid", "key"⟩ "/droplets/1/resize&size_slug=512mb"
      = "https://api.digitalocean.com/v1/droplets/1/resize&size_slug=512mb?client_id=cid&api_key=key"
  ∧ "https://api.digitalocean.com/v1/droplets/1/resize&size_slug=512mb?client_id=cid&api_key=key".data.count '?'
      = 1
  ∧ ("https://api.digitalocean.com/v1/droplets/1/resize&size_slug=512mb?client_id=cid&api_key=key".data.takeWhile
      (fun ch => ch ≠ '?')).contains '&' = true
  ∧ takeSnapshotEndpoint 2 "snap" = "/droplets/2/snapshot&name=snap" := by
  refine ⟨by decide, by decide, by decide, by decide, by decide⟩

/-- Claim C1 (code-bug evidence): the `Sprintf` call in `UpdateRecordByDomain`
supplies four arguments to three verbs, so at domain `"example.com"` and a
record with ID 7, type `"A"`, data `"1.2.3.4"` the built query carries
`record_type=%!s(int=7)` and `data=A` followed by an EXTRA-argument marker —
not `record_type=A&data=1.2.3.4` as the claim states; the envelope-decoding
tail of the operation does return the decoded record on an `OK` status. -/
theorem updateRecordByDomain_garbled_query :
    updateRecordEndpoint (.str "example.com") ⟨7, 0, "A", "", "1.2.3.4", 0, 0, 0⟩
      = .ok "/domains/example.com/records/new?record_type=%!s(int=7)&data=A%!(EXTRA string=1.2.3.4)"
  ∧ updateRecordEndpoint (.str "example.com") ⟨7, 0, "A", "", "1.2.3.4", 0, 0, 0⟩
      ≠ .ok "/domains/example.com/records/new?record_type=A&data=1.2.3.4"
  ∧ UpdateRecordByDomain ⟨"cid", "key"⟩
        (fun _ => .body ⟨"OK", ⟨7, 9, "A", "", "1.2.3.4", 0, 0, 0⟩, ""⟩)
        (.str "example.com") ⟨7, 0, "A", "", "1.2.3.4", 0, 0, 0⟩
      = .ret (some ⟨7, 9, "A", "", "1.2.3.4", 0, 0, 0⟩) none := by
  refine ⟨by decide, by decide, by decide⟩

/-- Claim C2 (counterexample): a `NewDroplet` with an empty `Name` but all
three selectors supplied is not rejected — `CreateDroplet` proceeds to the
network: with an `OK` envelope it returns a created droplet and a nil
error, and with an `ERROR` envelope it returns the server-message error, so
the result depends on the transport and no local name-validation error is
produced. -/
theorem createDroplet_emptyName_not_validated :
    CreateDroplet ⟨"cid", "key"⟩
        (fun _ => .body ⟨"OK", ⟨100, "", 2, 1, 9⟩, ""⟩)
        ⟨"", 1, "", 2, "", 3, "", [], false, false⟩
      = .ret (some ⟨100, "", 2, 1, 9⟩) none
  ∧ CreateDroplet ⟨"cid", "key"⟩
        (fun _ => .body ⟨"ERROR", ⟨0, "", 0, 0, 0⟩, "boom"⟩)
        ⟨"", 1, "", 2, "", 3, "", [], false, false⟩
      = .ret none (some "could not create droplet: boom") := by
  refine ⟨by decide, by decide⟩

/-- Claim C2 (amended): `CreateDroplet` performs no local validation of the
`Name` field; when the three selector pairs are satisfied, a `NewDroplet`
with empty `Name` passes validation and the endpoint handed to the network
layer carries an empty `name=` parameter followed by the selector
parameters. -/
theorem createDroplet_emptyName_proceeds (n : NewDroplet)
    (h0 : n.name = "")
    (hs : ¬(n.sizeID = 0 ∧ n.sizeSlug = ""))
    (hi : ¬(n.imageID = 0 ∧ n.imageSlug = ""))
    (hr : ¬(n.regionID = 0 ∧ n.regionSlug = "")) :
    createDropletEndpoint n
      = .ok ("/droplets/new?name=" ++ (sizeChunk n ++ (imageChunk n
          ++ (regionChunk n ++ dropletOptionalTail n)))) := by
  rw [createDropletEndpoint_chunks n hs hi hr]
  simp [h0, String.append_assoc]

/-- Witness for the amended claim C2 at a concrete input. -/
theorem createDroplet_emptyName_proceeds_case :
    createDropletEndpoint ⟨"", 1, "", 2, "", 3, "", [], false, false⟩
      = .ok "/droplets/new?name=&size_id=1&image_id=2&region_id=3" :=
  (createDroplet_emptyName_proceeds ⟨"", 1, "", 2, "", 3, "", [], false, false⟩
    rfl (by decide) (by decide) (by decide)).trans (by decide)

/-- Claim C4: whenever some selector pair of a `NewDroplet` has numeric id
zero and empty slug, `CreateDroplet` returns the validation error produced
by the first failing check — an error that names a selector whose pair is
indeed missing — for every transport oracle, so the network layer is never
invoked. -/
theorem createDroplet_missingSelector_localError (c : Client)
    (http : String → HttpResponse (Envelope PartialDroplet)) (n : NewDroplet)
    (e : String) (h : firstSelectorError n = some e) :
    CreateDroplet c http n = .ret none (some e)
  ∧ (e = "size ID or slug must be set" → n.sizeID = 0 ∧ n.sizeSlug = "")
  ∧ (e = "image ID or slug must be set" → n.imageID = 0 ∧ n.imageSlug = "")
  ∧ (e = "region ID or slug must be set" → n.regionID = 0 ∧ n.regionSlug = "") := by
  unfold firstSelectorError at h
  split_ifs at h with h1 h2 h3
  · injection h with he
    subst he
    refine ⟨by simp [CreateDroplet, createDropletEndpoint, h1], fun _ => h1, ?_, ?_⟩
    · intro hx; exact absurd hx (by decide)
    · intro hx; exact absurd hx (by decide)
  · injection h with he
    subst he
    refine ⟨by simp [CreateDroplet, createDropletEndpoint, h1, h2], ?_, fun _ => h2, ?_⟩
    · intro hx; exact absurd hx (by decide)
    · intro hx; exact absurd hx (by decide)
  · injection h with he
    subst he
    refine ⟨by simp [CreateDroplet, createDropletEndpoint, h1, h2, h3], ?_, ?_, fun _ => h3⟩
    · intro hx; exact absurd hx (by decide)
    · intro hx; exact absurd hx (by decide)

/-- Witness for claim C4: a droplet request missing both size id and size
slug fails locally with the size validation error under an arbitrary
concrete transport oracle. -/
theorem createDroplet_missingSelector_localError_case :
    CreateDroplet ⟨"cid", "key"⟩ (fun _ => .body ⟨"OK", ⟨1, "d", 2, 3, 4⟩, ""⟩)
        ⟨"web", 0, "", 3, "", 5, "", [], false, false⟩
      = .ret none (some "size ID or slug must be set") :=
  (createDroplet_missingSelector_localError ⟨"cid", "key"⟩
    (fun _ => .body ⟨"OK", ⟨1, "d", 2, 3, 4⟩, ""⟩)
    ⟨"web", 0, "", 3, "", 5, "", [], false, false⟩
    "size ID or slug must be set" (by decide)).1

/-- Claim C6: the queries constructed by `CreateDomainRecord` and
`CreateDroplet` are exactly the `&`-joined parameter lists in which every
optional field with a zero value (empty name, priority 0, port 0, weight 0,
empty ssh key list, unset boolean flags) contributes nothing and every
non-zero optional value contributes its parameter. -/
theorem optionalZeroFields_omitted (ID : GoValue) (r : DomainRecord) (n : NewDroplet)
    (h1 : r.recordType ≠ "") (h2 : r.data ≠ "")
    (hs : ¬(n.sizeID = 0 ∧ n.sizeSlug = ""))
    (hi : ¬(n.imageID = 0 ∧ n.imageSlug = ""))
    (hr : ¬(n.regionID = 0 ∧ n.regionSlug = "")) :
    createDomainRecordEndpoint ID r
      = .ok ("/domains/" ++ ID.fmtV ++ "/records/new?"
          ++ joinParams (domainRecordParams r))
  ∧ createDropletEndpoint n
      = .ok ("/droplets/new?" ++ joinParams (newDropletParams n)) := by
  constructor
  · rw [createDomainRecordEndpoint_chunks ID r h1 h2]
    unfold recordOptionalTail domainRecordParams
    split_ifs <;>
      simp [joinParams, String.append_assoc, split_rt, split_data, split_name,
        split_priority, split_port, split_weight]
  · rw [createDropletEndpoint_chunks n hs hi hr]
    unfold sizeChunk imageChunk regionChunk dropletOptionalTail newDropletParams
    split_ifs <;>
      simp [joinParams, String.append_assoc, split_dname, split_size_id,
        split_size_slug, split_image_id, split_image_slug, split_region_id,
        split_region_slug, split_ssh]

/-- Witness for claim C6: concrete calls with a mix of zero and non-zero
optional fields; the zero-valued ones are absent from the final query. -/
theorem optionalZeroFields_omitted_case :
    createDomainRecordEndpoint (.str "ex.com") ⟨0, 0, "A", "", "1.2.3.4", 5, 0, 0⟩
      = .ok "/domains/ex.com/records/new?record_type=A&data=1.2.3.4&priority=5"
  ∧ createDropletEndpoint ⟨"web", 0, "2gb", 3, "", 0, "nyc1", [], true, false⟩
      = .ok "/droplets/new?name=web&size_slug=2gb&image_id=3&region_slug=nyc1&private_networking=true" := by
  have h := optionalZeroFields_omitted (.str "ex.com") ⟨0, 0, "A", "", "1.2.3.4", 5, 0, 0⟩
    ⟨"web", 0, "2gb", 3, "", 0, "nyc1", [], true, false⟩
    (by decide) (by decide) (by decide) (by decide) (by decide)
  exact ⟨h.1.trans (by decide), h.2.trans (by decide)⟩

/-- Claim C10: when every selector pair has both the numeric id non-zero and
the slug non-empty, `CreateDroplet` does not reject the input: the endpoint
carries `size_id`, `image_id` and `region_id`, and the three slug values are
ignored entirely (replacing them leaves the endpoint unchanged). -/
theorem createDroplet_bothIdAndSlug_usesId (n : NewDroplet) (s1 s2 s3 : String)
    (h1 : n.sizeID ≠ 0) (_h2 : n.sizeSlug ≠ "") (h3 : n.imageID ≠ 0)
    (_h4 : n.imageSlug ≠ "") (h5 : n.regionID ≠ 0) (_h6 : n.regionSlug ≠ "") :
    createDropletEndpoint n
      = .ok ("/droplets/new?name=" ++ n.name ++ "&size_id=" ++ toString n.sizeID
          ++ "&image_id=" ++ toString n.imageID ++ "&region_id=" ++ toString n.regionID
          ++ dropletOptionalTail n)
  ∧ createDropletEndpoint { n with sizeSlug := s1, imageSlug := s2, regionSlug := s3 }
      = createDropletEndpoint n := by
  have hs : ¬(n.sizeID = 0 ∧ n.sizeSlug = "") := fun hc => h1 hc.1
  have hi : ¬(n.imageID = 0 ∧ n.imageSlug = "") := fun hc => h3 hc.1
  have hr : ¬(n.regionID = 0 ∧ n.regionSlug = "") := fun hc => h5 hc.1
  have hs' : ¬(n.sizeID = 0 ∧ s1 = "") := fun hc => h1 hc.1
  have hi' : ¬(n.imageID = 0 ∧ s2 = "") := fun hc => h3 hc.1
  have hr' : ¬(n.regionID = 0 ∧ s3 = "") := fun hc => h5 hc.1
  constructor
  · rw [createDropletEndpoint_chunks n hs hi hr]
    simp [sizeChunk, imageChunk, regionChunk, h1, h3, h5, String.append_assoc]
  · rw [createDropletEndpoint_chunks n hs hi hr,
      createDropletEndpoint_chunks { n with sizeSlug := s1, imageSlug := s2, regionSlug := s3 }
        (by simpa using hs') (by simpa using hi') (by simpa using hr')]
    simp [sizeChunk, imageChunk, regionChunk, dropletOptionalTail, h1, h3, h5]

/-- Witness for claim C10: concrete droplet request with id and slug both
set for each selector; the ids are used and the slugs dropped. -/
theorem createDroplet_bothIdAndSlug_usesId_case :
    createDropletEndpoint ⟨"web", 1, "1gb", 2, "ubu", 3, "ams1", [], false, false⟩
      = .ok "/droplets/new?name=web&size_id=1&image_id=2&region_id=3"
  ∧ createDropletEndpoint ⟨"web", 1, "other1", 2, "other2", 3, "other3", [], false, false⟩
      = createDropletEndpoint ⟨"web", 1, "1gb", 2, "ubu", 3, "ams1", [], false, false⟩ := by
  have h := createDroplet_bothIdAndSlug_usesId
    ⟨"web", 1, "1gb", 2, "ubu", 3, "ams1", [], false, false⟩ "other1" "other2" "other3"
    (by decide) (by decide) (by decide) (by decide) (by decide) (by decide)
  exact ⟨h.1.trans (by decide), h.2⟩

end Godo
